import Mathlib

/-!
A shallow embedding of `crates/bevy_xpbd_2d/examples/ray_caster.rs` and
proofs about it.

Scalars (`f32` / `Scalar`) are modelled exactly by `ℚ`; the trigonometric
functions of the host library are passed in as abstract functions; the
spatial-query facility `sq.cast_ray` of the external physics engine is an
oracle parameter `castRay : RayQuery → Option RayHitData`; the debug-draw
calls on `gizmos` are collected into an explicit trace of `Gizmo` values.
-/

namespace RayCasterExample

/-- A 2D vector (bevy `Vec2` / xpbd `Vector`). -/
structure Vec2 where
  x : ℚ
  y : ℚ
deriving DecidableEq, Repr

instance : Add Vec2 := ⟨fun a b => ⟨a.x + b.x, a.y + b.y⟩⟩

instance : Sub Vec2 := ⟨fun a b => ⟨a.x - b.x, a.y - b.y⟩⟩

/-- Scalar multiplication on the right, as in `direction * 1000.` -/
instance : HMul Vec2 ℚ Vec2 := ⟨fun v s => ⟨v.x * s, v.y * s⟩⟩

/-- Dot product of 2D vectors. -/
def dot (a b : Vec2) : ℚ := a.x * b.x + a.y * b.y

/-- A 3D vector (bevy `Vec3`). -/
structure Vec3 where
  x : ℚ
  y : ℚ
  z : ℚ
deriving DecidableEq, Repr

/-- Entities are identified by their numeric id. -/
abbrev Entity := ℕ

/-- The data of one ray hit (xpbd `RayHitData`). -/
structure RayHitData where
  entity : Entity
  time_of_impact : ℚ
  normal : Vec2
deriving DecidableEq, Repr

/-- The arguments of one `sq.cast_ray` call: origin, direction, maximum
time of impact, the `solid` flag, and the entities excluded by the
`SpatialQueryFilter`. -/
structure RayQuery where
  origin : Vec2
  direction : Vec2
  maxToi : ℚ
  solid : Bool
  excluded : List Entity
deriving DecidableEq, Repr

/-- The colors used by the example's debug drawing. -/
inductive GColor where
  | green
  | yellow
  | orange
  | orangeRed
deriving DecidableEq, Repr

/-- One debug-draw call on `gizmos`. -/
inductive Gizmo where
  | line2d (a b : Vec2) (c : GColor)
  | circle2d (center : Vec2) (radius : ℚ) (c : GColor)
  | arrow2d (a b : Vec2) (c : GColor)
  | ray2d (origin dir : Vec2) (c : GColor)
deriving DecidableEq, Repr

/-- The query issued by one iteration of the ricochet loop from state
(`ricochet`, `last_hit_location`): origin is the last hit location, the
direction is `Direction2d::new_unchecked(ricochet.normal)`, maximum time
of impact `1000.0`, `solid = true`, and the filter excludes exactly the
previously hit entity. -/
def ricochetQuery (ricochet : RayHitData) (last_hit_location : Vec2) : RayQuery :=
  ⟨last_hit_location, ricochet.normal, (1000 : ℚ), true, [ricochet.entity]⟩

/-- The `while some_ricochet.is_some() && n_hits < 64` loop of
`render_rays`, with `fuel = 64 - n_hits` iterations remaining. Returns
the list of `cast_ray` queries issued, the gizmos drawn, and the final
`last_hit_location`. -/
def ricochetLoop (castRay : RayQuery → Option RayHitData) (fuel : ℕ)
    (some_ricochet : Option RayHitData) (last_hit_location : Vec2) :
    List RayQuery × List Gizmo × Vec2 :=
  match fuel with
  | 0 => ([], [], last_hit_location)
  | fuel + 1 =>
    match some_ricochet with
    | none => ([], [], last_hit_location)
    | some ricochet =>
      let q := ricochetQuery ricochet last_hit_location
      match castRay q with
      | some this_hit =>
        if this_hit.time_of_impact = 0 then
          ([q], [], last_hit_location)
        else
          let new_hit_location :=
            last_hit_location + ricochet.normal * this_hit.time_of_impact
          let rest := ricochetLoop castRay fuel (some this_hit) new_hit_location
          (q :: rest.1,
           Gizmo.circle2d last_hit_location 5 GColor.yellow ::
             Gizmo.arrow2d last_hit_location new_hit_location GColor.green :: rest.2.1,
           rest.2.2)
      | none =>
        ([q],
         [Gizmo.circle2d last_hit_location 5 GColor.orange,
          Gizmo.ray2d last_hit_location (ricochet.normal * (1000 : ℚ)) GColor.orangeRed],
         last_hit_location)

/-- The number of iterations the ricochet loop body executes. -/
def ricochetIters (castRay : RayQuery → Option RayHitData) (fuel : ℕ)
    (some_ricochet : Option RayHitData) (last_hit_location : Vec2) : ℕ :=
  match fuel with
  | 0 => 0
  | fuel + 1 =>
    match some_ricochet with
    | none => 0
    | some ricochet =>
      match castRay (ricochetQuery ricochet last_hit_location) with
      | some this_hit =>
        if this_hit.time_of_impact = 0 then 1
        else
          1 + ricochetIters castRay fuel (some this_hit)
            (last_hit_location + ricochet.normal * this_hit.time_of_impact)
      | none => 1

/-- Processing of one `hit` of `hits.iter()` in `render_rays`: draw the
green line from the global origin to the hit location, then run the
ricochet loop starting with `n_hits = 1` (hence `64 - 1 = 63` remaining
iterations). -/
def processHit (castRay : RayQuery → Option RayHitData)
    (origin direction : Vec2) (hit : RayHitData) :
    List RayQuery × List Gizmo × Vec2 :=
  let last_hit_location := origin + direction * hit.time_of_impact
  let rest := ricochetLoop castRay 63 (some hit) last_hit_location
  (rest.1, Gizmo.line2d origin last_hit_location GColor.green :: rest.2.1, rest.2.2)

/-- The body of `render_rays` for one ray caster: iterate over its hits,
then draw the long orange-red line when the hit collection is empty.
Returns the `cast_ray` queries issued and the gizmos drawn. -/
def renderRay (castRay : RayQuery → Option RayHitData)
    (origin direction : Vec2) (hits : List RayHitData) :
    List RayQuery × List Gizmo :=
  let perHit := hits.map (processHit castRay origin direction)
  ((perHit.map (fun p => p.1)).flatten,
   (perHit.map (fun p => p.2.1)).flatten ++
     (if hits.isEmpty then
        [Gizmo.line2d origin (origin + direction * (1000000 : ℚ)) GColor.orangeRed]
      else []))

/-- The `render_rays` system over all ray casters in the query. -/
def render_rays (castRay : RayQuery → Option RayHitData)
    (rays : List (Vec2 × Vec2 × List RayHitData)) : List Gizmo :=
  (rays.map (fun r => (renderRay castRay r.1 r.2.1 r.2.2).2)).flatten

/-- Mirror reflection of a direction about a unit normal:
`d - 2 (d · n) n`. Stated by the spec's reading of the ricochet loop;
the code itself never computes this. -/
def reflect (d n : Vec2) : Vec2 := d - n * (2 * dot d n)

/-- The kinds of rigid body in the physics engine. -/
inductive RigidBodyKind where
  | static
  | dynamic
  | kinematic
deriving DecidableEq, Repr

/-- The `RayCaster` component: `RayCaster::new(origin, direction)`. -/
structure RayCasterCmp where
  origin : Vec2
  direction : Vec2
deriving DecidableEq, Repr

/-- One circle child spawned under the `ParentTransform` entity: its mesh
radius, its local transform translation, and its `Collider::circle`
radius. -/
structure ChildCircle where
  meshRadius : ℚ
  position : Vec3
  colliderRadius : ℚ
deriving DecidableEq, Repr

/-- An entity bundle spawned by `setup`. -/
inductive Spawned where
  | camera
  | parentBundle (children : List ChildCircle)
  | body (kind : RigidBodyKind) (angularVelocity : ℚ) (ray : RayCasterCmp)
deriving DecidableEq, Repr

/-- The inclusive integer range `lo..=hi` of the Rust `for` loops. -/
def intRange (lo hi : ℤ) : List ℤ :=
  (List.range (hi - lo + 1).toNat).map (fun (i : ℕ) => lo + (i : ℤ))

/-- The perimeter circles spawned in `setup`: for `x` and `y` in `-4..=4`,
skipping the pairs with both coordinates in the half-open range `-3..4`,
a circle of mesh radius 16 at `(x * radius * 3, y * radius * 3, 0)` with
`Collider::circle(16)`. -/
def perimeterCircles : List ChildCircle :=
  (intRange (-4) 4).flatMap fun (x : ℤ) =>
    (intRange (-4) 4).filterMap fun (y : ℤ) =>
      if (-3 ≤ x ∧ x < 4) ∧ (-3 ≤ y ∧ y < 4) then none
      else
        some ⟨16, ⟨(x : ℚ) * 16 * 3, (y : ℚ) * 16 * 3, 0⟩, 16⟩

/-- Whether a spawned bundle is the ray-casting rigid body. -/
def isRayBody : Spawned → Bool
  | Spawned.body _ _ _ => true
  | _ => false

/-- The bundles spawned by `setup`: the camera, the `ParentTransform`
entity with its circle children, and the rotating kinematic body with
`AngularVelocity(0.02)` and `RayCaster::new(Vector::ZERO, Direction2d::X)`. -/
def setup : List Spawned :=
  [Spawned.camera,
   Spawned.parentBundle perimeterCircles,
   Spawned.body RigidBodyKind.kinematic (0.02 : ℚ) ⟨⟨0, 0⟩, ⟨1, 0⟩⟩]

/-- A bevy `Transform` restricted to what the example uses: a translation
and a rotation about the Z axis, stored as its accumulated angle (every
quaternion the example builds is `Quat::from_rotation_z`). -/
structure Transform where
  translation : Vec3
  rotAngle : ℚ
deriving DecidableEq, Repr

/-- Application of a rotation about the Z axis to a `Vec3`, given the sine
and cosine of its angle: the x-y plane rotates, z is untouched. -/
def rotZApply (s c : ℚ) (v : Vec3) : Vec3 :=
  ⟨c * v.x - s * v.y, s * v.x + c * v.y, v.z⟩

instance : Add Vec3 := ⟨fun a b => ⟨a.x + b.x, a.y + b.y, a.z + b.z⟩⟩

instance : Sub Vec3 := ⟨fun a b => ⟨a.x - b.x, a.y - b.y, a.z - b.z⟩⟩

/-- Bevy's `Transform::rotate_around(point, rotation)` for a rotation of
`angle` about the Z axis:
`translation = point + rotation * (translation - point)` and
`rotation = rotation * self.rotation` (angles add). The sine and cosine
of the host library are abstract parameters `sinF`, `cosF`. -/
def rotateAround (sinF cosF : ℚ → ℚ) (t : Transform) (point : Vec3) (angle : ℚ) :
    Transform :=
  { translation := point + rotZApply (sinF angle) (cosF angle) (t.translation - point),
    rotAngle := angle + t.rotAngle }

/-- The body of `transform_parent` on the matched transform: rotate around
the point `Vec3::Z` by `Quat::from_rotation_z(0.001 * delta_seconds)`,
then set `translation.x = sin(elapsed) * 10` and
`translation.y = cos(elapsed) * 10`. -/
def transform_parent (sinF cosF : ℚ → ℚ) (delta elapsed : ℚ) (t : Transform) :
    Transform :=
  let t1 := rotateAround sinF cosF t ⟨0, 0, 1⟩ (0.001 * delta)
  { t1 with
    translation := { t1.translation with
                      x := sinF elapsed * 10,
                      y := cosF elapsed * 10 } }

/-- An entity as seen by the `transform_parent` system: whether it carries
the `ParentTransform` marker component, and its `Transform`. -/
structure EntityRec where
  isParentMarked : Bool
  transform : Transform
deriving DecidableEq, Repr

/-- The whole `transform_parent` system:
`parent.get_single_mut()` succeeds only when exactly one entity matches
`With<ParentTransform>`; then that entity's transform is updated, and
nothing else in the world changes. -/
def transformParentSystem (sinF cosF : ℚ → ℚ) (delta elapsed : ℚ)
    (world : List EntityRec) : List EntityRec :=
  if (world.filter (fun e => e.isParentMarked)).length = 1 then
    world.map fun e =>
      if e.isParentMarked then
        { e with transform := transform_parent sinF cosF delta elapsed e.transform }
      else e
  else world

/-- The app states of `examples_common_2d`. -/
inductive AppState where
  | running
  | paused
deriving DecidableEq, Repr

/-- The systems the example registers. -/
inductive SystemName where
  | renderRaysSys
  | transformParentSys
  | setupSys
deriving DecidableEq, Repr

/-- The `Update` systems added in `main`, with their run condition:
`render_rays` unconditionally, `transform_parent` only
`run_if(in_state(AppState::Running))`. -/
def updateSchedule : List (SystemName × Option AppState) :=
  [(SystemName.renderRaysSys, none),
   (SystemName.transformParentSys, some AppState.running)]

/-- Whether a gizmo is a `line_2d` call. -/
def isLineGizmo : Gizmo → Bool
  | Gizmo.line2d _ _ _ => true
  | _ => false

/-- Whether a gizmo is a `circle_2d` call. -/
def isCircleGizmo : Gizmo → Bool
  | Gizmo.circle2d _ _ _ => true
  | _ => false

/-- Whether a gizmo is an `arrow_2d` call. -/
def isArrowGizmo : Gizmo → Bool
  | Gizmo.arrow2d _ _ _ => true
  | _ => false

/-- Whether a gizmo is a `ray_2d` call. -/
def isRayGizmo : Gizmo → Bool
  | Gizmo.ray2d _ _ _ => true
  | _ => false

/-- The endpoints of a `line_2d` gizmo. -/
def lineEndpoints : Gizmo → Option (Vec2 × Vec2)
  | Gizmo.line2d a b _ => some (a, b)
  | _ => none

/-- The observable program of one example file, bundled: the per-ray
rendering, the spawned scene, the per-frame transform step, and whether
the file contains the extra debug print. -/
structure ExampleApp where
  renderOneRay : (RayQuery → Option RayHitData) → Vec2 → Vec2 →
    List RayHitData → List RayQuery × List Gizmo
  setupSpawned : List Spawned
  transformStep : (ℚ → ℚ) → (ℚ → ℚ) → ℚ → ℚ → Transform → Transform
  hasDebugPrint : Bool

/-- The program of the provided `ray_caster.rs`. -/
def rayCasterApp : ExampleApp :=
  ⟨renderRay, setup, transform_parent, false⟩

/-- Modelled from the spec: the second, near-verbatim copy of the example
file that the spec reports in the repository but that is absent from the
provided sources. Per the spec it differs from `ray_caster.rs` only in
minor constants and a debug print; its observable behavior is modelled
as the same rendering, setup and transform code, with the debug print
present. -/
def rayCasterCopyApp : ExampleApp :=
  ⟨renderRay, setup, transform_parent, true⟩

/-- Two example files are near-verbatim copies when their rendering,
scene setup and transform step agree, differences being confined to the
debug print (and the minor constants the copies happen to share). -/
def NearVerbatim (a b : ExampleApp) : Prop :=
  a.renderOneRay = b.renderOneRay ∧ a.setupSpawned = b.setupSpawned ∧
    a.transformStep = b.transformStep

@[simp] theorem Vec2_add_def (a b : Vec2) : a + b = ⟨a.x + b.x, a.y + b.y⟩ := rfl

@[simp] theorem Vec2_sub_def (a b : Vec2) : a - b = ⟨a.x - b.x, a.y - b.y⟩ := rfl

@[simp] theorem Vec2_smul_def (v : Vec2) (s : ℚ) : v * s = ⟨v.x * s, v.y * s⟩ := rfl

@[simp] theorem Vec3_add_def (a b : Vec3) : a + b = ⟨a.x + b.x, a.y + b.y, a.z + b.z⟩ := rfl

@[simp] theorem Vec3_sub_def (a b : Vec3) : a - b = ⟨a.x - b.x, a.y - b.y, a.z - b.z⟩ := rfl

theorem ricochetLoop_queries_length_le (castRay : RayQuery → Option RayHitData) :
    ∀ (fuel : ℕ) (s : Option RayHitData) (last : Vec2),
      ((ricochetLoop castRay fuel s last).1).length ≤ fuel := by
  intro fuel
  induction fuel with
  | zero => intro s last; simp [ricochetLoop]
  | succ n ih =>
    intro s last
    cases s with
    | none => simp [ricochetLoop]
    | some r =>
      cases h : castRay (ricochetQuery r last) with
      | none => simp [ricochetLoop, h]
      | some th =>
        by_cases h0 : th.time_of_impact = 0
        · simp [ricochetLoop, h, h0]
        · simp only [ricochetLoop, h, h0, if_false, List.length_cons]
          exact Nat.succ_le_succ (ih _ _)

theorem ricochetLoop_queries_length_eq_iters (castRay : RayQuery → Option RayHitData) :
    ∀ (fuel : ℕ) (s : Option RayHitData) (last : Vec2),
      ((ricochetLoop castRay fuel s last).1).length = ricochetIters castRay fuel s last := by
  intro fuel
  induction fuel with
  | zero => intro s last; simp [ricochetLoop, ricochetIters]
  | succ n ih =>
    intro s last
    cases s with
    | none => simp [ricochetLoop, ricochetIters]
    | some r =>
      cases h : castRay (ricochetQuery r last) with
      | none => simp [ricochetLoop, ricochetIters, h]
      | some th =>
        by_cases h0 : th.time_of_impact = 0
        · simp [ricochetLoop, ricochetIters, h, h0]
        · simp only [ricochetLoop, ricochetIters, h, h0, if_false, List.length_cons]
          rw [ih, Nat.add_comm]

theorem ricochetLoop_queries_mem (castRay : RayQuery → Option RayHitData) :
    ∀ (fuel : ℕ) (s : Option RayHitData) (last : Vec2) (q : RayQuery),
      q ∈ (ricochetLoop castRay fuel s last).1 →
        q.maxToi = 1000 ∧ q.solid = true ∧
          ∃ h : RayHitData, q.excluded = [h.entity] ∧ q.direction = h.normal := by
  intro fuel
  induction fuel with
  | zero => intro s last q hq; simp [ricochetLoop] at hq
  | succ n ih =>
    intro s last q hq
    cases s with
    | none => simp [ricochetLoop] at hq
    | some r =>
      cases h : castRay (ricochetQuery r last) with
      | none =>
        simp [ricochetLoop, h] at hq
        subst hq
        exact ⟨rfl, rfl, r, rfl, rfl⟩
      | some th =>
        by_cases h0 : th.time_of_impact = 0
        · simp [ricochetLoop, h, h0] at hq
          subst hq
          exact ⟨rfl, rfl, r, rfl, rfl⟩
        · simp only [ricochetLoop, h, h0, if_false, List.mem_cons] at hq
          rcases hq with hq | hq
          · subst hq
            exact ⟨rfl, rfl, r, rfl, rfl⟩
          · exact ih _ _ _ hq

theorem ricochetLoop_queries_head (castRay : RayQuery → Option RayHitData)
    (fuel : ℕ) (r : RayHitData) (last : Vec2) :
    ((ricochetLoop castRay (fuel + 1) (some r) last).1).head? =
      some (ricochetQuery r last) := by
  cases h : castRay (ricochetQuery r last) with
  | none => simp [ricochetLoop, h]
  | some th =>
    by_cases h0 : th.time_of_impact = 0
    · simp [ricochetLoop, h, h0]
    · simp [ricochetLoop, h, h0]

theorem mem_intRange {lo hi x : ℤ} : x ∈ intRange lo hi ↔ lo ≤ x ∧ x ≤ hi := by
  constructor
  · intro hx
    rw [intRange, List.mem_map] at hx
    obtain ⟨i, hi2, hix⟩ := hx
    rw [List.mem_range] at hi2
    omega
  · intro hx
    rw [intRange, List.mem_map]
    refine ⟨(x - lo).toNat, ?_, ?_⟩
    · rw [List.mem_range]
      omega
    · omega

theorem mem_perimeterCircles (c : ChildCircle) :
    c ∈ perimeterCircles ↔
      ∃ x y : ℤ, (-4 ≤ x ∧ x ≤ 4) ∧ (-4 ≤ y ∧ y ≤ 4) ∧
        ¬((-3 ≤ x ∧ x < 4) ∧ (-3 ≤ y ∧ y < 4)) ∧
        c = ⟨16, ⟨(x : ℚ) * 16 * 3, (y : ℚ) * 16 * 3, 0⟩, 16⟩ := by
  rw [perimeterCircles, List.mem_flatMap]
  constructor
  · rintro ⟨x, hx, hc⟩
    rw [List.mem_filterMap] at hc
    obtain ⟨y, hy, hfy⟩ := hc
    rw [mem_intRange] at hx hy
    by_cases hp : (-3 ≤ x ∧ x < 4) ∧ (-3 ≤ y ∧ y < 4)
    · rw [if_pos hp] at hfy
      exact absurd hfy (by simp)
    · rw [if_neg hp] at hfy
      exact ⟨x, y, hx, hy, hp, (Option.some.inj hfy).symm⟩
  · rintro ⟨x, y, hx, hy, hp, rfl⟩
    refine ⟨x, ?_, ?_⟩
    · rw [mem_intRange]
      exact hx
    · rw [List.mem_filterMap]
      refine ⟨y, ?_, ?_⟩
      · rw [mem_intRange]
        exact hy
      · rw [if_neg hp]

/-- Claim C1, counterexample: at the concrete loop state with incoming ray
direction `(1, 0)` and previous hit normal `(0, 1)` (hit entity 0, time
of impact 5, so the hit location is `(5, 0)`), the next cast's direction
is the normal `(0, 1)`, which differs from the mirror reflection
`d - 2 (d · n) n = (1, 0)` of the incoming direction. -/
theorem ricochet_direction_not_reflection_cex :
    ((ricochetLoop (fun _ => none) 63 (some ⟨0, 5, ⟨0, 1⟩⟩) ⟨5, 0⟩).1.head?.map
        RayQuery.direction) = some (⟨0, 1⟩ : Vec2) ∧
      some (⟨0, 1⟩ : Vec2) ≠ some (reflect ⟨1, 0⟩ ⟨0, 1⟩) := by
  refine ⟨rfl, ?_⟩
  simp only [reflect, dot, Vec2_sub_def, Vec2_smul_def, Option.some.injEq, Vec2.mk.injEq,
    ne_eq, not_and]
  norm_num

/-- Claim C1, amended: in every ricochet step of `render_rays`, the direction of
the next ray cast equals the surface normal returned for the previous
hit (`Direction2d::new_unchecked(ricochet.normal)`), not the mirror
reflection of the incoming direction about that normal. -/
theorem ricochet_direction_is_normal (castRay : RayQuery → Option RayHitData)
    (fuel : ℕ) (r : RayHitData) (last : Vec2) :
    ((ricochetLoop castRay (fuel + 1) (some r) last).1.head?.map RayQuery.direction) =
      some r.normal := by
  rw [ricochetLoop_queries_head]
  rfl

/-- Claim C3: every ricochet cast in the loop is exactly one `sq.cast_ray` call
per iteration (the number of queries equals the number of iterations);
every query has maximum time of impact `1000.0`, `solid = true`, and a
filter excluding a single entity (the previously hit one, whose normal is
the cast direction); and from any live loop state the query issued has
origin equal to the current last hit location and excludes exactly the
entity of the previous hit. -/
theorem ricochet_cast_call_shape (castRay : RayQuery → Option RayHitData)
    (fuel : ℕ) (s : Option RayHitData) (last : Vec2) :
    ((ricochetLoop castRay fuel s last).1).length = ricochetIters castRay fuel s last ∧
      (∀ q ∈ (ricochetLoop castRay fuel s last).1,
        q.maxToi = 1000 ∧ q.solid = true ∧
          ∃ h : RayHitData, q.excluded = [h.entity] ∧ q.direction = h.normal) ∧
      (∀ r : RayHitData, s = some r → 0 < fuel →
        ((ricochetLoop castRay fuel s last).1).head? =
          some ⟨last, r.normal, 1000, true, [r.entity]⟩) := by
  refine ⟨ricochetLoop_queries_length_eq_iters castRay fuel s last,
    fun q hq => ricochetLoop_queries_mem castRay fuel s last q hq, ?_⟩
  intro r hs hfuel
  subst hs
  cases fuel with
  | zero => exact absurd hfuel (by decide)
  | succ n => exact ricochetLoop_queries_head castRay n r last

/-- Claim C3, witness: the cast-call shape evaluated at a concrete loop state. -/
theorem ricochet_cast_call_shape_witness :
    ((ricochetLoop (fun _ => none) 1 (some ⟨7, 2, ⟨0, 1⟩⟩) ⟨3, 4⟩).1).head? =
      some ⟨⟨3, 4⟩, ⟨0, 1⟩, 1000, true, [7]⟩ :=
  (ricochet_cast_call_shape (fun _ => none) 1 (some ⟨7, 2, ⟨0, 1⟩⟩) ⟨3, 4⟩).2.2
    ⟨7, 2, ⟨0, 1⟩⟩ rfl (by decide)

/-- Claim C8: for every initial hit processed by `render_rays`, the ricochet
loop terminates after at most 63 ray casts: the counter starts at 1, the
guard requires it below 64, so the loop body runs at most 63 times
whatever the spatial-query oracle returns. -/
theorem ricochet_loop_terminates (castRay : RayQuery → Option RayHitData)
    (origin direction : Vec2) (hit : RayHitData) :
    ((processHit castRay origin direction hit).1).length ≤ 63 :=
  ricochetLoop_queries_length_le castRay 63 (some hit)
    (origin + direction * hit.time_of_impact)

/-- Claim C9: when a ricochet cast returns a hit with `time_of_impact == 0.`,
the loop breaks at once: that step issues the one query but draws no
circle, arrow or line, and `last_hit_location` keeps its previous value. -/
theorem ricochet_zero_toi_breaks (castRay : RayQuery → Option RayHitData)
    (fuel : ℕ) (r : RayHitData) (last : Vec2) (th : RayHitData)
    (hcast : castRay (ricochetQuery r last) = some th)
    (h0 : th.time_of_impact = 0) :
    ricochetLoop castRay (fuel + 1) (some r) last = ([ricochetQuery r last], [], last) := by
  simp [ricochetLoop, hcast, h0]

/-- Claim C9, witness: the break on a zero time of impact at a concrete state. -/
theorem ricochet_zero_toi_breaks_witness :
    ricochetLoop (fun _ => some ⟨3, 0, ⟨0, 1⟩⟩) 63 (some ⟨5, 2, ⟨1, 0⟩⟩) ⟨9, 9⟩ =
      ([ricochetQuery ⟨5, 2, ⟨1, 0⟩⟩ ⟨9, 9⟩], [], ⟨9, 9⟩) :=
  ricochet_zero_toi_breaks (fun _ => some ⟨3, 0, ⟨0, 1⟩⟩) 62 ⟨5, 2, ⟨1, 0⟩⟩ ⟨9, 9⟩
    ⟨3, 0, ⟨0, 1⟩⟩ rfl rfl

/-- Claim C2 (spec-modelled): the repository holds a second example file that is
a near-verbatim copy of `ray_caster.rs`: there is a program (modelled
from the spec, since only one copy is under the provided sources) whose
rendering, scene setup and transform step coincide with those of
`ray_caster.rs`, the two differing only in the debug print. -/
theorem second_copy_near_verbatim :
    NearVerbatim rayCasterApp rayCasterCopyApp ∧ rayCasterApp ≠ rayCasterCopyApp := by
  refine ⟨⟨rfl, rfl, rfl⟩, ?_⟩
  intro h
  have hb := congrArg ExampleApp.hasDebugPrint h
  simp [rayCasterApp, rayCasterCopyApp] at hb

/-- Claim C4: `setup` spawns exactly one ray-casting entity, and it is a
kinematic rigid body with `AngularVelocity(0.02)` carrying
`RayCaster::new(Vector::ZERO, Direction2d::X)` (local origin zero,
direction the positive X axis). -/
theorem setup_unique_ray_caster :
    setup.filter isRayBody =
      [Spawned.body RigidBodyKind.kinematic (0.02 : ℚ) ⟨⟨0, 0⟩, ⟨1, 0⟩⟩] := rfl

/-- Claim C5, counterexample: with one hit at time of impact 1,000,000 and a
ricochet cast that returns a zero-time-of-impact hit, `render_rays`
draws exactly one debug line, from the ray's origin to
`origin + direction * 1,000,000`, and no circle, arrow or ray gizmo —
yet the hit collection is not empty, so the biconditional of the claim
fails at this input. -/
theorem empty_hits_fallback_iff_cex :
    ¬ (([⟨0, (1000000 : ℚ), ⟨0, 1⟩⟩] : List RayHitData).isEmpty = true ↔
        ((((renderRay (fun _ => some ⟨1, 0, ⟨0, 1⟩⟩) ⟨0, 0⟩ ⟨1, 0⟩
              [⟨0, (1000000 : ℚ), ⟨0, 1⟩⟩]).2.filter isLineGizmo).map lineEndpoints) =
            [some (⟨0, 0⟩, (⟨0, 0⟩ : Vec2) + (⟨1, 0⟩ : Vec2) * (1000000 : ℚ))] ∧
          ((renderRay (fun _ => some ⟨1, 0, ⟨0, 1⟩⟩) ⟨0, 0⟩ ⟨1, 0⟩
              [⟨0, (1000000 : ℚ), ⟨0, 1⟩⟩]).2.filter isCircleGizmo) = [] ∧
          ((renderRay (fun _ => some ⟨1, 0, ⟨0, 1⟩⟩) ⟨0, 0⟩ ⟨1, 0⟩
              [⟨0, (1000000 : ℚ), ⟨0, 1⟩⟩]).2.filter isArrowGizmo) = [] ∧
          ((renderRay (fun _ => some ⟨1, 0, ⟨0, 1⟩⟩) ⟨0, 0⟩ ⟨1, 0⟩
              [⟨0, (1000000 : ℚ), ⟨0, 1⟩⟩]).2.filter isRayGizmo) = [])) := by
  intro h
  have h2 := h.mpr ⟨rfl, rfl, rfl, rfl⟩
  simp at h2

/-- Claim C5, amended: the hit collection of a ray caster is empty if and only
if the complete list of gizmos drawn for that ray is the single
orange-red fallback line from the ray's global origin to
`origin + direction * 1,000,000`. -/
theorem empty_hits_single_fallback_line (castRay : RayQuery → Option RayHitData)
    (origin direction : Vec2) (hits : List RayHitData) :
    hits.isEmpty = true ↔
      (renderRay castRay origin direction hits).2 =
        [Gizmo.line2d origin (origin + direction * (1000000 : ℚ)) GColor.orangeRed] := by
  cases hits with
  | nil => simp [renderRay]
  | cons h t =>
    constructor
    · intro hfalse
      exact absurd hfalse (by simp)
    · intro heq
      exfalso
      simp [renderRay, processHit] at heq

/-- Claim C6: `setup` spawns, as children of the `ParentTransform` entity,
exactly 32 collider circles of radius 16 — one at `(48 x, 48 y, 0)` for
every integer pair `(x, y)` with `-4 ≤ x, y ≤ 4` such that `x` or `y`
lies outside `[-3, 3]` — and nothing in the interior of the 9 × 9 grid. -/
theorem perimeter_circles_shape :
    perimeterCircles.length = 32 ∧
      (∀ x : ℤ, x ∈ Finset.Icc (-4 : ℤ) 4 → ∀ y : ℤ, y ∈ Finset.Icc (-4 : ℤ) 4 →
        ((¬(-3 ≤ x ∧ x ≤ 3) ∨ ¬(-3 ≤ y ∧ y ≤ 3)) ↔
          (⟨16, ⟨(x : ℚ) * 48, (y : ℚ) * 48, 0⟩, 16⟩ : ChildCircle) ∈ perimeterCircles)) ∧
      (∀ c ∈ perimeterCircles, ∃ x y : ℤ,
        -4 ≤ x ∧ x ≤ 4 ∧ -4 ≤ y ∧ y ≤ 4 ∧
          (¬(-3 ≤ x ∧ x ≤ 3) ∨ ¬(-3 ≤ y ∧ y ≤ 3)) ∧
          c = ⟨16, ⟨(x : ℚ) * 48, (y : ℚ) * 48, 0⟩, 16⟩) := by
  refine ⟨by decide, ?_, ?_⟩
  · intro x hx y hy
    rw [Finset.mem_Icc] at hx hy
    constructor
    · intro hperim
      rw [mem_perimeterCircles]
      refine ⟨x, y, hx, hy, by omega, ?_⟩
      have h1 : (x : ℚ) * 48 = (x : ℚ) * 16 * 3 := by ring
      have h2 : (y : ℚ) * 48 = (y : ℚ) * 16 * 3 := by ring
      rw [h1, h2]
    · intro hmem
      rw [mem_perimeterCircles] at hmem
      obtain ⟨x', y', hx', hy', hp', heq⟩ := hmem
      have h1 : (x : ℚ) * 48 = (x' : ℚ) * 16 * 3 :=
        congrArg (fun c : ChildCircle => c.position.x) heq
      have h2 : (y : ℚ) * 48 = (y' : ℚ) * 16 * 3 :=
        congrArg (fun c : ChildCircle => c.position.y) heq
      have hxq : (x : ℚ) = (x' : ℚ) := by
        have h48 : (48 : ℚ) ≠ 0 := by norm_num
        apply mul_right_cancel₀ h48
        linarith
      have hyq : (y : ℚ) = (y' : ℚ) := by
        have h48 : (48 : ℚ) ≠ 0 := by norm_num
        apply mul_right_cancel₀ h48
        linarith
      have hxx : x = x' := by exact_mod_cast hxq
      have hyy : y = y' := by exact_mod_cast hyq
      subst hxx
      subst hyy
      omega
  · intro c hc
    rw [mem_perimeterCircles] at hc
    obtain ⟨x, y, hx, hy, hp, rfl⟩ := hc
    refine ⟨x, y, hx.1, hx.2, hy.1, hy.2, by omega, ?_⟩
    have h1 : (x : ℚ) * 48 = (x : ℚ) * 16 * 3 := by ring
    have h2 : (y : ℚ) * 48 = (y : ℚ) * 16 * 3 := by ring
    rw [h1, h2]

/-- Claim C6, witness: the circle at grid cell `(-4, 0)` is among the spawned
perimeter circles. -/
theorem perimeter_circles_shape_witness :
    (⟨16, ⟨((-4 : ℤ) : ℚ) * 48, ((0 : ℤ) : ℚ) * 48, 0⟩, 16⟩ : ChildCircle) ∈
      perimeterCircles :=
  (perimeter_circles_shape.2.1 (-4) (by rw [Finset.mem_Icc]; omega)
    0 (by rw [Finset.mem_Icc]; omega)).mp (by omega)

/-- Claim C7: `transform_parent` runs in the `Running` state; it adds
`0.001 * delta_seconds` to the transform's rotation about the Z axis,
which is a rotation around the world Z axis (rotating around the point
`Vec3::Z` coincides with rotating around the origin), and sets the
translation's x and y to `10 * sin(elapsed)` and `10 * cos(elapsed)`. -/
theorem transform_parent_rotation_translation (sinF cosF : ℚ → ℚ)
    (delta elapsed : ℚ) (t : Transform) :
    (SystemName.transformParentSys, some AppState.running) ∈ updateSchedule ∧
      (transform_parent sinF cosF delta elapsed t).rotAngle = 0.001 * delta + t.rotAngle ∧
      (transform_parent sinF cosF delta elapsed t).translation.x = 10 * sinF elapsed ∧
      (transform_parent sinF cosF delta elapsed t).translation.y = 10 * cosF elapsed ∧
      rotateAround sinF cosF t ⟨0, 0, 1⟩ (0.001 * delta) =
        rotateAround sinF cosF t ⟨0, 0, 0⟩ (0.001 * delta) := by
  refine ⟨by decide, rfl, ?_, ?_, ?_⟩
  · have hx : (transform_parent sinF cosF delta elapsed t).translation.x =
      sinF elapsed * 10 := rfl
    rw [hx]
    ring
  · have hy : (transform_parent sinF cosF delta elapsed t).translation.y =
      cosF elapsed * 10 := rfl
    rw [hy]
    ring
  · simp only [rotateAround, rotZApply, Vec3_add_def, Vec3_sub_def, Transform.mk.injEq,
      Vec3.mk.injEq]
    norm_num

/-- Claim C10: `transform_parent` modifies only entities carrying the
`ParentTransform` marker, and on those it leaves the translation's z
component (and the marker) unchanged; every other entity of the world is
returned untouched. -/
theorem transform_parent_writes_only_marked (sinF cosF : ℚ → ℚ)
    (delta elapsed : ℚ) (world : List EntityRec) (i : ℕ) (e : EntityRec)
    (he : world[i]? = some e) :
    ∃ e2, (transformParentSystem sinF cosF delta elapsed world)[i]? = some e2 ∧
      (e.isParentMarked = false → e2 = e) ∧
      e2.isParentMarked = e.isParentMarked ∧
      e2.transform.translation.z = e.transform.translation.z := by
  unfold transformParentSystem
  by_cases hc : (world.filter (fun e => e.isParentMarked)).length = 1
  · rw [if_pos hc]
    refine ⟨if e.isParentMarked then
        { e with transform := transform_parent sinF cosF delta elapsed e.transform }
      else e, ?_, ?_, ?_, ?_⟩
    · rw [List.getElem?_map, he]
      rfl
    · intro hm
      simp [hm]
    · by_cases hm : e.isParentMarked <;> simp [hm]
    · by_cases hm : e.isParentMarked
      · rw [if_pos hm]
        have hz : (transform_parent sinF cosF delta elapsed e.transform).translation.z =
            1 + (e.transform.translation.z - 1) := rfl
        show (transform_parent sinF cosF delta elapsed e.transform).translation.z = _
        rw [hz]
        ring
      · rw [if_neg hm]
  · rw [if_neg hc]
    exact ⟨e, he, fun _ => rfl, rfl, rfl⟩

/-- Claim C10, witness: the system applied to a one-entity world carrying the
marker, observed at index 0. -/
theorem transform_parent_writes_only_marked_witness :
    ∃ e2, (transformParentSystem (fun _ => 0) (fun _ => 1) 1 2
        [⟨true, ⟨⟨3, 4, 7⟩, 0⟩⟩])[0]? = some e2 ∧
      ((⟨true, ⟨⟨3, 4, 7⟩, 0⟩⟩ : EntityRec).isParentMarked = false →
        e2 = ⟨true, ⟨⟨3, 4, 7⟩, 0⟩⟩) ∧
      e2.isParentMarked = (⟨true, ⟨⟨3, 4, 7⟩, 0⟩⟩ : EntityRec).isParentMarked ∧
      e2.transform.translation.z =
        (⟨true, ⟨⟨3, 4, 7⟩, 0⟩⟩ : EntityRec).transform.translation.z :=
  transform_parent_writes_only_marked (fun _ => 0) (fun _ => 1) 1 2
    [⟨true, ⟨⟨3, 4, 7⟩, 0⟩⟩] 0 ⟨true, ⟨⟨3, 4, 7⟩, 0⟩⟩ rfl

end RayCasterExample
